import Mathlib

/-!
Shallow embedding of the cache/refresh core of the `aurorawatchuk` package
(`src/aurorawatchuk/__init__.py`), together with theorems settling the
specification claims about it.

The embedding models:
* the per-resource module state (`_data`, `_expires`, `_permit_preemptive`,
  one slot per resource name) as `CacheState`;
* the on-disk pickle cache (`_cache_files` contents) as `DiskState`;
* the decoder functions `_cache_status` / `_cache_activity` /
  `_cache_descriptions` as `cacheResource`, parameterised by the outcome of
  the network read and XML parse (`FetchStep`);
* `AuroraWatchUK._get_data` as `get_data`;
* `_save_to_cache` as `save_to_cache` (state update) and
  `save_to_cache_events` (lock/IO event trace, for the locking claim);
* `init` (endpoint registration and disk hydration) as `awInit`;
* the deep-copy discipline of `_get_data` / `_save_to_cache` as a small
  heap model (`deepcopyAlloc`, `mutate`);
* the facade accessors `status_level`, `status_color`, `status_description`.

Python exceptions are modelled by the `Fetched` type (`raised` = the call
raised, `returned` = the call returned a value).
-/

namespace AuroraWatch

/-- The three resource names managed by the module: keys of `_urls[base_url]`
(`__init__.py` lines 587-589) and of `_min_time_left` (lines 648-650). -/
inductive Res : Type
  | status
  | activity
  | descriptions
deriving DecidableEq

/-- Outcome of a Python call: it either raised an exception or returned a
value.  Used in place of `Except` so that equality is decidable on concrete
inputs. -/
inductive Fetched (α : Type) : Type
  | raised
  | returned (a : α)
deriving DecidableEq

/-- A single AuroraWatch UK message (class `Message`, lines 351-397).
Timestamps are modelled as integers. -/
structure Message : Type where
  id : String
  priority : String
  description : String
  url : Option String
  expires : Int
deriving DecidableEq

/-- Current status (class `Status`, lines 240-272): constructed as
`Status(expires, level, updated, messages)`. -/
structure Status : Type where
  expires : Int
  level : String
  updated : Int
  messages : List Message
deriving DecidableEq

/-- A single activity value (class `ActivityValue`, lines 326-348).  The
floating-point nT value is modelled as an integer; no claim depends on its
arithmetic. -/
structure ActivityValue : Type where
  level : String
  datetime : Int
  value : Int
deriving DecidableEq

/-- Current and recent activity (class `Activity`, lines 275-323):
constructed as `Activity(expires, thresholds, updated, activity_values,
messages)`. -/
structure Activity : Type where
  expires : Int
  thresholds : List (String × Int)
  updated : Int
  activity_values : List ActivityValue
  messages : List Message
deriving DecidableEq

/-- The `Activity.latest` property is `self._activity_values[-1]`
(line 316); in Python this raises `IndexError` on an empty list, so it is
modelled as the optional last element. -/
def Activity.latest? (a : Activity) : Option ActivityValue :=
  a.activity_values.getLast?

/-- One entry of the descriptions dictionary built by `_cache_descriptions`
(lines 519-521): `dict(color=..., description=..., meaning=...)`. -/
structure DescEntry : Type where
  color : String
  description : String
  meaning : String
deriving DecidableEq

/-- A decoded payload stored in `_data[base_url][name]`: a `Status`, an
`Activity`, or the descriptions dictionary (an ordered association list). -/
inductive Val : Type
  | status (s : Status)
  | activity (a : Activity)
  | descriptions (d : List (String × DescEntry))
deriving DecidableEq

instance : Inhabited Val := ⟨Val.status ⟨0, "", 0, []⟩⟩

/-- One cache entry for a (base_url, name) pair: the module-level values
`_data[base_url][name]`, `_expires[base_url][name]` and
`_permit_preemptive[base_url][name]` (lines 644-646). -/
structure Entry : Type where
  value : Option Val
  expires : Int
  permit : Bool
deriving DecidableEq

/-- The entry created at registration: `_expires = 0`, `_data = None`,
`_permit_preemptive = True` (lines 597-599). -/
def emptyEntry : Entry := ⟨none, 0, true⟩

/-- The in-memory cache for one endpoint: one `Entry` per resource. -/
structure CacheState : Type where
  eStatus : Entry
  eActivity : Entry
  eDescriptions : Entry
deriving DecidableEq

def CacheState.entry (c : CacheState) : Res → Entry
  | .status => c.eStatus
  | .activity => c.eActivity
  | .descriptions => c.eDescriptions

def CacheState.set (c : CacheState) (r : Res) (e : Entry) : CacheState :=
  match r with
  | .status => { c with eStatus := e }
  | .activity => { c with eActivity := e }
  | .descriptions => { c with eDescriptions := e }

/-- Setting only `_permit_preemptive[base_url][name]` (as at line 98). -/
def CacheState.setPermit (c : CacheState) (r : Res) (b : Bool) : CacheState :=
  c.set r { c.entry r with permit := b }

/-- The cache for an unregistered endpoint after `init` creates its entries
(lines 596-599). -/
def emptyCache : CacheState := ⟨emptyEntry, emptyEntry, emptyEntry⟩

/-- The content of one on-disk cache file `_cache_files[base_url][name]`:
absent, present but unreadable by `pickle.load`, or a good pickled
`(data, expires)` pair. -/
inductive DiskFile : Type
  | absent
  | corrupt
  | good (v : Val) (expires : Int)
deriving DecidableEq

/-- The on-disk cache for one endpoint: one file per resource. -/
structure DiskState : Type where
  fStatus : DiskFile
  fActivity : DiskFile
  fDescriptions : DiskFile
deriving DecidableEq

def DiskState.get (d : DiskState) : Res → DiskFile
  | .status => d.fStatus
  | .activity => d.fActivity
  | .descriptions => d.fDescriptions

def DiskState.set (d : DiskState) (r : Res) (f : DiskFile) : DiskState :=
  match r with
  | .status => { d with fStatus := f }
  | .activity => { d with fActivity := f }
  | .descriptions => { d with fDescriptions := f }

/-- The `_min_time_left` dictionary (lines 648-650): the preemptive-update
threshold, in seconds, for each resource name.  `none` would model a name
absent from the dictionary; in the source all three names are present. -/
def minTimeLeft : Res → Option Int
  | .status => some 20
  | .activity => some 20
  | .descriptions => some 3600

/-- Outcome of one invocation of a decoder `_cache_<name>`:
`fetchFail` models `_read_document` raising (network/HTTP error, before the
`try` block); `parseFail` models the document being read but the XML
decode raising inside the `try` block; `parseOk v ex` models a successful
decode returning `(v, ex)`. -/
inductive FetchStep : Type
  | fetchFail
  | parseFail
  | parseOk (v : Val) (ex : Int)
deriving DecidableEq

/-- The decoder functions `_cache_status` (lines 442-464), `_cache_activity`
(lines 467-499) and `_cache_descriptions` (lines 502-528), abstracted over
the network/parse outcome.  On `fetchFail` the exception from
`_read_document` propagates before the `try` block, so no cache file is
touched.  On `parseFail` the `except` block runs
`_invalidate_cache(base_url, 'status')` — in all three decoders the
invalidated name is the literal `'status'`, not the decoder's own resource —
and re-raises.  On success the decoded pair is returned. -/
def cacheResource (_r : Res) (d : DiskState) (f : FetchStep) :
    DiskState × Fetched (Val × Int) :=
  match f with
  | .fetchFail => (d, .raised)
  | .parseFail => (d.set .status .absent, .raised)
  | .parseOk v ex => (d, .returned (v, ex))

/-- `_save_to_cache` (lines 418-426): pickle `(data, expires)` to the cache
file when `use_disk_cache`, then under the entry's lock store a deep copy of
the data, the expiry, and re-enable preemptive updates. -/
def save_to_cache (st : CacheState) (d : DiskState) (r : Res) (v : Val)
    (ex : Int) (useDisk : Bool) : CacheState × DiskState :=
  let d' := if useDisk then d.set r (.good v ex) else d
  (st.set r ⟨some v, ex, true⟩, d')

/-- The snapshot taken under the first lock acquisition of `_get_data`
(lines 79-84): `preemptive = _permit_preemptive[base_url][name] and
self._preemptive`. -/
def snapshotPreemptive (st : CacheState) (r : Res) (instPreemptive : Bool) :
    Bool :=
  (st.entry r).permit && instPreemptive

/-- The preemptive-update step of the fresh path of `_get_data`
(lines 88-98), taken as one atomic step: if `use_disk_cache`, the name has
an entry in `_min_time_left`, `time_left` is below it and the snapshotted
`preemptive` flag is true, then a background thread is started and —
afterwards, under a second lock acquisition — `_permit_preemptive` is set
to `False`.  Note the condition consults the snapshot taken earlier, not
the current flag.  Returns the new state and whether a thread was
spawned. -/
def freshPreemptiveStep (st : CacheState) (r : Res) (snapPreemptive : Bool)
    (timeLeft : Int) (useDisk : Bool) : CacheState × Bool :=
  let eligible := useDisk &&
    (match minTimeLeft r with
     | some m => decide (timeLeft < m)
     | none => false) && snapPreemptive
  if eligible then (st.setPermit r false, true) else (st, false)

/-- The result of one call to `_get_data`: the module state and disk state
after the call, what the caller sees (`raised`, or the returned object —
`None` is possible before the first fetch), the number of synchronous
decoder invocations performed by this call, and the number of background
threads it spawned. -/
structure GD : Type where
  st : CacheState
  dk : DiskState
  ret : Fetched (Option Val)
  syncFetches : Nat
  spawned : Nat
deriving DecidableEq

/-- The stale / forced branch of `_get_data` (lines 108-126): invoke the
resource's decoder; on failure the exception propagates; on success
`_save_to_cache` the pair, and for the `activity` resource additionally
build `Status(expires, data.latest.level, data.updated, data.messages)` and
save it under `'status'`.  `data.latest` raises `IndexError` when the
activity list is empty, in which case the bare `except` re-raises — after
the activity entry has already been saved. -/
def syncRefresh (r : Res) (st : CacheState) (dk : DiskState)
    (useDisk : Bool) (f : FetchStep) : GD :=
  match cacheResource r dk f with
  | (dk1, .raised) => ⟨st, dk1, .raised, 1, 0⟩
  | (dk1, .returned (v, ex)) =>
    let p1 := save_to_cache st dk1 r v ex useDisk
    if r = Res.activity then
      match v with
      | .activity a =>
        match a.latest? with
        | some av =>
          let sv := Val.status ⟨ex, av.level, a.updated, a.messages⟩
          let p2 := save_to_cache p1.1 p1.2 Res.status sv ex useDisk
          ⟨p2.1, p2.2, .returned (some v), 1, 0⟩
        | none => ⟨p1.1, p1.2, .raised, 1, 0⟩
      | _ => ⟨p1.1, p1.2, .raised, 1, 0⟩
    else ⟨p1.1, p1.2, .returned (some v), 1, 0⟩

/-- `AuroraWatchUK._get_data` (lines 78-126).  Under the entry's lock a
deep copy of the data (`(st.entry r).value`), the expiry and the preemptive
snapshot are taken; if `time_left > 0` and the update is not forced, the
snapshot is returned, possibly after spawning one background refresh
thread; otherwise the synchronous stale/forced branch runs. -/
def get_data (r : Res) (st : CacheState) (dk : DiskState) (now : Int)
    (forced instPreemptive useDisk : Bool) (f : FetchStep) : GD :=
  if decide ((st.entry r).expires - now > 0) && !forced then
    let p := freshPreemptiveStep st r (snapshotPreemptive st r instPreemptive)
      ((st.entry r).expires - now) useDisk
    ⟨p.1, dk, .returned (st.entry r).value, 0, if p.2 then 1 else 0⟩
  else
    syncRefresh r st dk useDisk f

/-! Lock/IO event traces.  The locking claim about `_save_to_cache` is
about the order of the disk write relative to the lock acquisition, so
`_save_to_cache` is additionally modelled as the sequence of events it
performs. -/

/-- An observable event of `_save_to_cache`: acquiring or releasing the
entry's lock, writing the on-disk cache file, or updating the in-memory
entry. -/
inductive CEvent : Type
  | acquire (r : Res)
  | release (r : Res)
  | diskWrite (r : Res)
  | memWrite (r : Res)
deriving DecidableEq

/-- Event trace of `_save_to_cache` (lines 418-426): when `use_disk_cache`
is set the pickled pair is written to the cache file first (lines 419-421,
outside any `with _locks...` block); only then is the entry's lock
acquired and the in-memory entry updated (lines 423-426). -/
def save_to_cache_events (useDisk : Bool) (r : Res) : List CEvent :=
  (if useDisk then [CEvent.diskWrite r] else []) ++
    [CEvent.acquire r, CEvent.memWrite r, CEvent.release r]

/-- Net number of acquisitions of resource `r`'s lock in a trace. -/
def lockBalance (tr : List CEvent) (r : Res) : Int :=
  tr.foldl
    (fun n e =>
      match e with
      | CEvent.acquire r' => if r' = r then n + 1 else n
      | CEvent.release r' => if r' = r then n - 1 else n
      | _ => n) 0

/-- Whether resource `r`'s lock is held when the event at position `i` of
the trace is performed. -/
def heldAtB (tr : List CEvent) (i : Nat) (r : Res) : Bool :=
  decide (0 < lockBalance (tr.take i) r)

/-- Every disk write of a resource's cache file happens while that
resource's lock is held. -/
def diskWritesUnderLockB (tr : List CEvent) : Bool :=
  (List.range tr.length).all fun i =>
    match tr[i]? with
    | some (CEvent.diskWrite r) => heldAtB tr i r
    | _ => true

/-- Every in-memory entry update happens while that resource's lock is
held. -/
def memWritesUnderLockB (tr : List CEvent) : Bool :=
  (List.range tr.length).all fun i =>
    match tr[i]? with
    | some (CEvent.memWrite r) => heldAtB tr i r
    | _ => true

/-- Every disk write of a resource's cache file happens while that
resource's lock is not held. -/
def diskWritesOutsideLockB (tr : List CEvent) : Bool :=
  (List.range tr.length).all fun i =>
    match tr[i]? with
    | some (CEvent.diskWrite r) => !heldAtB tr i r
    | _ => true

/-! Endpoint registration (`init`, lines 562-614). -/

/-- `_load_from_disk_cache` (lines 413-415): unpickle the `(data, expires)`
pair from the cache file; a corrupt file makes `pickle.load` raise. -/
def loadFromDiskCache (f : DiskFile) : Fetched (Val × Int) :=
  match f with
  | .good v ex => .returned (v, ex)
  | _ => .raised

/-- One iteration of the per-resource loop of `init` (lines 595-613):
create the empty entry with `_permit_preemptive = True`; if the cache file
exists, try to hydrate the entry from it, and on any load failure log it,
call `_invalidate_cache` for that resource, and continue without
raising. -/
def hydrateOne (p : DiskState × CacheState) (r : Res) : DiskState × CacheState :=
  let c0 := p.2.set r emptyEntry
  match p.1.get r with
  | .absent => (p.1, c0)
  | f =>
    match loadFromDiskCache f with
    | .returned (v, ex) => (p.1, c0.set r ⟨some v, ex, true⟩)
    | .raised => (p.1.set r .absent, c0)

/-- The body of `init` for a new endpoint: create and hydrate the entry of
every known resource.  When `use_disk_cache` is false no hydration is
attempted and all entries stay empty. -/
def initEndpoint (dk : DiskState) (useDisk : Bool) : DiskState × CacheState :=
  if useDisk then
    hydrateOne (hydrateOne (hydrateOne (dk, emptyCache) .status) .activity) .descriptions
  else (dk, emptyCache)

/-- The registered endpoints: `base_url` keys of `_urls` together with the
per-endpoint disk and memory caches. -/
def Registry : Type := List (String × (DiskState × CacheState))

/-- `init(base_url)` (lines 562-614): under `_init_lock`, if the endpoint
is already registered (`base_url in _urls`) nothing is done; otherwise its
entries are created and hydrated.  `dk` is the pre-existing on-disk cache
content for the new endpoint. -/
def awInit (reg : Registry) (url : String) (dk : DiskState) (useDisk : Bool) :
    Registry :=
  match List.lookup url reg with
  | some _ => reg
  | none => (url, initEndpoint dk useDisk) :: reg

/-! Deep-copy discipline.  `_get_data` returns `deepcopy(_data[...])`
(line 80) and `_save_to_cache` stores `deepcopy(data)` (line 424).  To
state the aliasing content of those calls, objects are modelled as slots in
a heap (a list of `Val`), and `deepcopy` as allocation of a fresh slot
holding an equal value. -/

/-- `copy.deepcopy`: allocate a fresh slot holding the same value as slot
`a`; the fresh address is the old heap length, so it differs from every
existing address. -/
def deepcopyAlloc (h : List Val) (a : Nat) : List Val × Nat :=
  (h ++ [h.getD a default], h.length)

/-- Line 80, `data = deepcopy(_data[self._base_url][name])`: the object
handed to the caller is a fresh copy of the cached slot `cacheAddr`. -/
def readCached (h : List Val) (cacheAddr : Nat) : List Val × Nat :=
  deepcopyAlloc h cacheAddr

/-- Line 424, `_data[base_url][name] = deepcopy(data)`: the cache is made
to hold a fresh copy of the caller's object at `inputAddr`; the returned
address is the new cached slot. -/
def writeThroughCopy (h : List Val) (inputAddr : Nat) : List Val × Nat :=
  deepcopyAlloc h inputAddr

/-- Mutation of the object at address `a`. -/
def mutate (h : List Val) (a : Nat) (w : Val) : List Val :=
  h.set a w

/-! Facade accessors (lines 141-194), abstracted over the outcome of the
underlying `_get_data` calls. -/

/-- `AuroraWatchUK.status_level` (lines 141-157): with `raise_=True` the
exception from `_get_data('status')` propagates; with `raise_=False` it is
caught and the literal `'unknown'` is returned. -/
def status_level (raiseErrors : Bool) (sRes : Fetched Status) : Fetched String :=
  if raiseErrors then
    match sRes with
    | .raised => .raised
    | .returned s => .returned s.level
  else
    match sRes with
    | .raised => .returned "unknown"
    | .returned s => .returned s.level

/-- The expression `self.descriptions[self.status.level][key]` shared by
`status_color` and `status_description`: `self.descriptions` is evaluated
first, then `self.status`; a missing level key raises `KeyError`. -/
def descriptionField (dRes : Fetched (List (String × DescEntry)))
    (sRes : Fetched Status) (field : DescEntry → String) : Fetched String :=
  match dRes with
  | .raised => .raised
  | .returned d =>
    match sRes with
    | .raised => .raised
    | .returned s =>
      match List.lookup s.level d with
      | some ent => .returned (field ent)
      | none => .raised

/-- `AuroraWatchUK.status_color` (lines 159-175): with `raise_=True` any
exception propagates; with `raise_=False` the configured
`unknown_status_color` is returned instead. -/
def status_color (raiseErrors : Bool) (unknownColor : String)
    (dRes : Fetched (List (String × DescEntry))) (sRes : Fetched Status) :
    Fetched String :=
  if raiseErrors then
    descriptionField dRes sRes DescEntry.color
  else
    match descriptionField dRes sRes DescEntry.color with
    | .returned c => .returned c
    | .raised => .returned unknownColor

/-- `AuroraWatchUK.status_description` (lines 177-194): with `raise_=True`
any exception propagates; with `raise_=False` the literal `'Unknown'` is
returned instead. -/
def status_description (raiseErrors : Bool)
    (dRes : Fetched (List (String × DescEntry))) (sRes : Fetched Status) :
    Fetched String :=
  if raiseErrors then
    descriptionField dRes sRes DescEntry.description
  else
    match descriptionField dRes sRes DescEntry.description with
    | .returned c => .returned c
    | .raised => .returned "Unknown"

/-! Concrete sample data used for witnesses and counterexamples. -/

def sampleStatus : Status := ⟨42, "green", 7, []⟩

def sampleStatusVal : Val := .status sampleStatus

def sampleAv : ActivityValue := ⟨"red", 3, 120⟩

def sampleActivity : Activity := ⟨10, [("green", 0)], 5, [sampleAv], []⟩

def sampleActivityVal : Val := .activity sampleActivity

def sampleDescs : List (String × DescEntry) :=
  [("green", ⟨"#33ff33", "No significant activity", "Aurora is unlikely."⟩)]

def sampleDescVal : Val := .descriptions sampleDescs

/-- A sample in-memory cache: status fresh until 42, activity stale after
10, descriptions never fetched. -/
def sampleSt : CacheState :=
  ⟨⟨some sampleStatusVal, 42, true⟩, ⟨some sampleActivityVal, 10, true⟩, emptyEntry⟩

/-- A sample on-disk cache with a persisted copy of every resource. -/
def sampleDk : DiskState :=
  ⟨.good sampleStatusVal 42, .good sampleActivityVal 10, .good sampleDescVal 77⟩

/-- An activity payload whose `activity` list is empty: a well-formed
document with zero `<activity>` elements. -/
def emptyActivity : Activity := ⟨99, [("green", 0)], 5, [], []⟩

/-- A sample cache whose `status` entry has `_permit_preemptive = False`
(a background refresh is in flight or has failed). -/
def samplePermitOff : CacheState :=
  ⟨⟨some sampleStatusVal, 42, false⟩, ⟨some sampleActivityVal, 10, true⟩, emptyEntry⟩

/-- A sample on-disk cache with unreadable `status` and `descriptions`
files. -/
def corruptDk : DiskState := ⟨.corrupt, .good sampleActivityVal 10, .corrupt⟩

/-! Basic lemmas about the state accessors. -/

lemma entry_set_self (c : CacheState) (r : Res) (e : Entry) :
    (c.set r e).entry r = e := by
  cases r <;> rfl

lemma entry_set_ne (c : CacheState) {r r' : Res} (e : Entry) (h : r' ≠ r) :
    (c.set r e).entry r' = c.entry r' := by
  cases r <;> cases r' <;> first | rfl | exact absurd rfl h

lemma disk_get_set_self (d : DiskState) (r : Res) (f : DiskFile) :
    (d.set r f).get r = f := by
  cases r <;> rfl

lemma disk_get_set_ne (d : DiskState) {r r' : Res} (f : DiskFile) (h : r' ≠ r) :
    (d.set r f).get r' = d.get r' := by
  cases r <;> cases r' <;> first | rfl | exact absurd rfl h

lemma setPermit_permit (c : CacheState) (r : Res) (b : Bool) :
    ((c.setPermit r b).entry r).permit = b := by
  unfold CacheState.setPermit
  rw [entry_set_self]

lemma save_to_cache_fst (st : CacheState) (dk : DiskState) (r : Res) (v : Val)
    (ex : Int) (useDisk : Bool) :
    (save_to_cache st dk r v ex useDisk).1 = st.set r ⟨some v, ex, true⟩ := rfl

lemma save_to_cache_snd (st : CacheState) (dk : DiskState) (r : Res) (v : Val)
    (ex : Int) (useDisk : Bool) :
    (save_to_cache st dk r v ex useDisk).2 =
      if useDisk then dk.set r (.good v ex) else dk := rfl

lemma get_data_stale (r : Res) (st : CacheState) (dk : DiskState) (now : Int)
    (forced preempt useDisk : Bool) (f : FetchStep)
    (h : forced = true ∨ (st.entry r).expires - now ≤ 0) :
    get_data r st dk now forced preempt useDisk f =
      syncRefresh r st dk useDisk f := by
  unfold get_data
  rcases h with h | h
  · subst h; simp
  · have h' : ¬((st.entry r).expires - now > 0) := by omega
    simp [h']

lemma get_data_fresh (r : Res) (st : CacheState) (dk : DiskState) (now : Int)
    (preempt useDisk : Bool) (f : FetchStep)
    (h : 0 < (st.entry r).expires - now) :
    get_data r st dk now false preempt useDisk f =
      ⟨(freshPreemptiveStep st r (snapshotPreemptive st r preempt)
          ((st.entry r).expires - now) useDisk).1,
        dk, .returned (st.entry r).value, 0,
        if (freshPreemptiveStep st r (snapshotPreemptive st r preempt)
            ((st.entry r).expires - now) useDisk).2 then 1 else 0⟩ := by
  unfold get_data
  simp [h]

/-! Equation lemmas for the stale/forced branch. -/

lemma syncRefresh_fetchFail (r : Res) (st : CacheState) (dk : DiskState)
    (useDisk : Bool) :
    syncRefresh r st dk useDisk .fetchFail = ⟨st, dk, .raised, 1, 0⟩ := rfl

lemma syncRefresh_parseFail (r : Res) (st : CacheState) (dk : DiskState)
    (useDisk : Bool) :
    syncRefresh r st dk useDisk .parseFail =
      ⟨st, dk.set .status .absent, .raised, 1, 0⟩ := rfl

lemma syncRefresh_parseOk_not_activity (r : Res) (st : CacheState)
    (dk : DiskState) (useDisk : Bool) (v : Val) (ex : Int)
    (hr : r ≠ Res.activity) :
    syncRefresh r st dk useDisk (.parseOk v ex) =
      ⟨st.set r ⟨some v, ex, true⟩, if useDisk then dk.set r (.good v ex) else dk,
       .returned (some v), 1, 0⟩ := by
  simp only [syncRefresh, cacheResource, save_to_cache, if_neg hr]

lemma syncRefresh_activity_ok (st : CacheState) (dk : DiskState)
    (useDisk : Bool) (a : Activity) (ex : Int) (av : ActivityValue)
    (h : a.latest? = some av) :
    syncRefresh Res.activity st dk useDisk (.parseOk (.activity a) ex) =
      ⟨(st.set .activity ⟨some (.activity a), ex, true⟩).set .status
          ⟨some (.status ⟨ex, av.level, a.updated, a.messages⟩), ex, true⟩,
       (if useDisk then
          (if useDisk then dk.set .activity (.good (.activity a) ex) else dk).set
            .status (.good (.status ⟨ex, av.level, a.updated, a.messages⟩) ex)
        else (if useDisk then dk.set .activity (.good (.activity a) ex) else dk)),
       .returned (some (.activity a)), 1, 0⟩ := by
  simp only [syncRefresh, cacheResource, save_to_cache, if_pos rfl, h, if_true]

lemma syncRefresh_activity_empty (st : CacheState) (dk : DiskState)
    (useDisk : Bool) (a : Activity) (ex : Int) (h : a.latest? = none) :
    syncRefresh Res.activity st dk useDisk (.parseOk (.activity a) ex) =
      ⟨st.set .activity ⟨some (.activity a), ex, true⟩,
       (if useDisk then dk.set .activity (.good (.activity a) ex) else dk),
       .raised, 1, 0⟩ := by
  simp only [syncRefresh, cacheResource, save_to_cache, if_pos rfl, h, if_true]

lemma syncRefresh_spawned (r : Res) (st : CacheState) (dk : DiskState)
    (useDisk : Bool) (f : FetchStep) :
    (syncRefresh r st dk useDisk f).spawned = 0 := by
  cases f with
  | fetchFail => rfl
  | parseFail => rfl
  | parseOk v ex =>
    by_cases hr : r = Res.activity
    · subst hr
      cases v with
      | status s => rfl
      | descriptions d => rfl
      | activity a =>
        cases hl : a.latest? with
        | none => rw [syncRefresh_activity_empty st dk useDisk a ex hl]
        | some av => rw [syncRefresh_activity_ok st dk useDisk a ex av hl]
    · rw [syncRefresh_parseOk_not_activity r st dk useDisk v ex hr]

/-! Lemmas about registration hydration. -/

lemma hydrateOne_entry_ne (p : DiskState × CacheState) {r r' : Res} (h : r' ≠ r) :
    ((hydrateOne p r).2).entry r' = (p.2).entry r' := by
  cases hf : p.1.get r with
  | absent =>
    simp only [hydrateOne, hf]
    exact entry_set_ne _ _ h
  | corrupt =>
    simp only [hydrateOne, hf, loadFromDiskCache]
    exact entry_set_ne _ _ h
  | good v ex =>
    simp only [hydrateOne, hf, loadFromDiskCache]
    rw [entry_set_ne _ _ h]
    exact entry_set_ne _ _ h

lemma hydrateOne_disk_ne (p : DiskState × CacheState) {r r' : Res} (h : r' ≠ r) :
    ((hydrateOne p r).1).get r' = (p.1).get r' := by
  cases hf : p.1.get r with
  | absent => simp only [hydrateOne, hf]
  | corrupt =>
    simp only [hydrateOne, hf, loadFromDiskCache]
    exact disk_get_set_ne _ _ h
  | good v ex => simp only [hydrateOne, hf, loadFromDiskCache]

lemma hydrateOne_corrupt (p : DiskState × CacheState) (r : Res)
    (h : p.1.get r = .corrupt) :
    ((hydrateOne p r).2).entry r = emptyEntry
    ∧ ((hydrateOne p r).1).get r = .absent := by
  simp only [hydrateOne, h, loadFromDiskCache]
  exact ⟨entry_set_self _ _ _, disk_get_set_self _ _ _⟩

/-! Claim theorems. -/

/-- C1: at a stale/forced read of `activity` at time 50 whose decode fails,
the source deletes the persisted copy of `status` — the `except` blocks of
`_cache_activity` (line 498) and `_cache_descriptions` (line 527) call
`_invalidate_cache(base_url, 'status')`, not `_invalidate_cache(base_url,
name)` — so the persisted copy for the failing resource itself
(`activity`, and likewise `descriptions`) survives intact while the
unrelated `status` copy is deleted, and the error propagates.  This
evaluates the embedded code at the failing input of the claim. -/
theorem claim1_code_divergence :
    (get_data .activity sampleSt sampleDk 50 true true true .parseFail).ret = .raised
    ∧ (get_data .activity sampleSt sampleDk 50 true true true .parseFail).dk.get
        .activity = .good sampleActivityVal 10
    ∧ (get_data .activity sampleSt sampleDk 50 true true true .parseFail).dk.get
        .status = .absent
    ∧ (get_data .descriptions sampleSt sampleDk 200 true true true .parseFail).dk.get
        .descriptions = .good sampleDescVal 77
    ∧ (get_data .descriptions sampleSt sampleDk 200 true true true .parseFail).dk.get
        .status = .absent := by
  decide

/-- C2, counterexample: two reads of the fresh `status` entry (expiry 42,
now 32, so `time_left = 10 < 20`) that both take their lock-protected
snapshot (lines 79-84) before either performs the spawn-and-disable step
(lines 88-98) each observe `refresh_permitted = true` and each spawn a
background task — the condition at line 89 consults the snapshot, not the
current flag, so the second read arriving before the first task completes
does spawn a second task, contradicting the claimed "exactly one". -/
theorem claim2_counterexample :
    (freshPreemptiveStep sampleSt .status
        (snapshotPreemptive sampleSt .status true) 10 true).2 = true
    ∧ ((freshPreemptiveStep
          (freshPreemptiveStep sampleSt .status
            (snapshotPreemptive sampleSt .status true) 10 true).1 .status
          (snapshotPreemptive sampleSt .status true) 10 true).2 = true) := by
  decide

/-- C2, amended: a read whose lock-protected snapshot already shows
`refresh_permitted = false` spawns no background task and leaves the entry
unchanged; and a read that does spawn a task clears `refresh_permitted` in
the same step, so any read whose snapshot is taken after that step (and
before a successful write-through re-enables the flag) observes
`refresh_permitted = false` and spawns nothing.  Two reads whose snapshots
are both taken before either spawn step can, however, each spawn a task
(see the counterexample). -/
theorem claim2_amended (st : CacheState) (r : Res) (inst useDisk : Bool)
    (tl : Int) (snap : Bool) :
    (snap = false → freshPreemptiveStep st r snap tl useDisk = (st, false))
    ∧ ((freshPreemptiveStep st r snap tl useDisk).2 = true →
        snapshotPreemptive (freshPreemptiveStep st r snap tl useDisk).1 r inst
          = false) := by
  constructor
  · intro h
    subst h
    simp [freshPreemptiveStep]
  · intro h
    unfold freshPreemptiveStep at h ⊢
    by_cases he : (useDisk &&
        (match minTimeLeft r with
         | some m => decide (tl < m)
         | none => false) && snap) = true
    · rw [if_pos he] at h ⊢
      unfold snapshotPreemptive
      rw [setPermit_permit]
      rfl
    · rw [if_neg he] at h
      exact absurd h (by simp)

theorem claim2_amended_witness :
    freshPreemptiveStep sampleSt .status false 10 true = (sampleSt, false)
    ∧ snapshotPreemptive
        (freshPreemptiveStep sampleSt .status true 10 true).1 .status true
        = false :=
  ⟨(claim2_amended sampleSt .status true true 10 false).1 rfl,
   (claim2_amended sampleSt .status true true 10 true).2 (by decide)⟩

/-- C4: a non-forced read of an entry whose expiry is strictly in the
future performs no synchronous fetch and returns the cached value
immediately, whether or not a background refresh thread is spawned
(lines 85-106). -/
theorem claim4_fresh_read (r : Res) (st : CacheState) (dk : DiskState)
    (now : Int) (preempt useDisk : Bool) (f : FetchStep)
    (h : 0 < (st.entry r).expires - now) :
    (get_data r st dk now false preempt useDisk f).syncFetches = 0
    ∧ (get_data r st dk now false preempt useDisk f).ret =
        .returned (st.entry r).value := by
  rw [get_data_fresh r st dk now preempt useDisk f h]
  exact ⟨rfl, rfl⟩

theorem claim4_fresh_read_witness :
    0 < (sampleSt.entry .status).expires - 30
    ∧ (get_data .status sampleSt sampleDk 30 false true true .fetchFail).syncFetches = 0
    ∧ (get_data .status sampleSt sampleDk 30 false true true .fetchFail).ret =
        .returned (sampleSt.entry .status).value :=
  ⟨by decide,
   (claim4_fresh_read .status sampleSt sampleDk 30 true true .fetchFail (by decide)).1,
   (claim4_fresh_read .status sampleSt sampleDk 30 true true .fetchFail (by decide)).2⟩

/-- C6, counterexample: in the event trace of `_save_to_cache` with disk
caching enabled, the disk write of the resource's cache file happens at
position 0, before the entry's lock is acquired (lines 419-421 precede the
`with _locks...` block at line 423), so it is not performed while holding
the lock, contradicting the claim. -/
theorem claim6_counterexample :
    diskWritesUnderLockB (save_to_cache_events true .status) = false := by
  decide

/-- C6, amended: in `_save_to_cache` the in-memory entry update is
performed while holding the entry's lock, but the on-disk cache file is
written before the lock is acquired, outside the lock; the lock therefore
does not serialize concurrent writers of the same file. -/
theorem claim6_amended (useDisk : Bool) (r : Res) :
    memWritesUnderLockB (save_to_cache_events useDisk r) = true
    ∧ diskWritesOutsideLockB (save_to_cache_events useDisk r) = true := by
  cases useDisk <;> cases r <;> exact ⟨by decide, by decide⟩

/-- C3, counterexample: a stale read of `activity` whose decode succeeds
with a payload carrying zero activity values writes the new value through
to the cache entry, but then `data.latest` (line 116, evaluated to build
the status projection) raises `IndexError`, the bare `except` re-raises,
and the caller gets the error instead of the new value — refuting "on
success ... the new value is returned to the caller". -/
theorem claim3_counterexample :
    (get_data .activity sampleSt sampleDk 50 false true true
        (.parseOk (.activity emptyActivity) 99)).st.entry .activity
      = ⟨some (.activity emptyActivity), 99, true⟩
    ∧ (get_data .activity sampleSt sampleDk 50 false true true
        (.parseOk (.activity emptyActivity) 99)).ret = .raised := by
  decide

/-- C3, amended: on every stale or forced read exactly one synchronous
decoder invocation is performed; when the decode succeeds the new value and
expiry are written through to the cache entry with `refresh_permitted`
re-enabled; and the new value is returned to the caller — except that for
the `activity` resource a payload with an empty activity list makes the
subsequent status projection raise after the write-through, so the error
propagates instead of the value (see the counterexample). -/
theorem claim3_amended (r : Res) (st : CacheState) (dk : DiskState) (now : Int)
    (forced preempt useDisk : Bool) (f : FetchStep)
    (h : forced = true ∨ (st.entry r).expires - now ≤ 0) :
    (get_data r st dk now forced preempt useDisk f).syncFetches = 1
    ∧ (∀ v ex, f = .parseOk v ex →
        (get_data r st dk now forced preempt useDisk f).st.entry r
          = ⟨some v, ex, true⟩)
    ∧ (∀ v ex, f = .parseOk v ex → r ≠ .activity →
        (get_data r st dk now forced preempt useDisk f).ret = .returned (some v))
    ∧ (∀ a ex av, f = .parseOk (.activity a) ex → a.latest? = some av →
        (get_data r st dk now forced preempt useDisk f).ret =
          .returned (some (.activity a))) := by
  rw [get_data_stale r st dk now forced preempt useDisk f h]
  refine ⟨?_, ?_, ?_, ?_⟩
  · cases f with
    | fetchFail => rfl
    | parseFail => rfl
    | parseOk v ex =>
      by_cases hr : r = Res.activity
      · subst hr
        cases v with
        | status s => rfl
        | descriptions d => rfl
        | activity a =>
          cases hl : a.latest? with
          | none => rw [syncRefresh_activity_empty st dk useDisk a ex hl]
          | some av => rw [syncRefresh_activity_ok st dk useDisk a ex av hl]
      · rw [syncRefresh_parseOk_not_activity r st dk useDisk v ex hr]
  · intro v ex hf
    subst hf
    by_cases hr : r = Res.activity
    · subst hr
      cases v with
      | status s => rfl
      | descriptions d => rfl
      | activity a =>
        cases hl : a.latest? with
        | none =>
          rw [syncRefresh_activity_empty st dk useDisk a ex hl]
          rfl
        | some av =>
          rw [syncRefresh_activity_ok st dk useDisk a ex av hl]
          rfl
    · rw [syncRefresh_parseOk_not_activity r st dk useDisk v ex hr]
      exact entry_set_self st r _
  · intro v ex hf hr
    subst hf
    rw [syncRefresh_parseOk_not_activity r st dk useDisk v ex hr]
  · intro a ex av hf hl
    subst hf
    by_cases hr : r = Res.activity
    · subst hr
      rw [syncRefresh_activity_ok st dk useDisk a ex av hl]
    · rw [syncRefresh_parseOk_not_activity r st dk useDisk _ ex hr]

theorem claim3_amended_witness :
    (false = true ∨ (sampleSt.entry Res.status).expires - 50 ≤ 0)
    ∧ (get_data .status sampleSt sampleDk 50 false true true
        (.parseOk sampleStatusVal 100)).syncFetches = 1
    ∧ (get_data .status sampleSt sampleDk 50 false true true
        (.parseOk sampleStatusVal 100)).st.entry .status
      = ⟨some sampleStatusVal, 100, true⟩
    ∧ (get_data .status sampleSt sampleDk 50 false true true
        (.parseOk sampleStatusVal 100)).ret = .returned (some sampleStatusVal) :=
  ⟨Or.inr (by decide),
   (claim3_amended .status sampleSt sampleDk 50 false true true
     (.parseOk sampleStatusVal 100) (Or.inr (by decide))).1,
   (claim3_amended .status sampleSt sampleDk 50 false true true
     (.parseOk sampleStatusVal 100) (Or.inr (by decide))).2.1 sampleStatusVal 100 rfl,
   (claim3_amended .status sampleSt sampleDk 50 false true true
     (.parseOk sampleStatusVal 100) (Or.inr (by decide))).2.2.1 sampleStatusVal 100
     rfl (by decide)⟩

/-- C5, counterexample: when a synchronous fetch of `activity` succeeds
with a payload carrying zero activity values, the `status` entry and the
persisted `status` copy are left unchanged (the projection at lines 114-117
raises while reading `data.latest` before `_save_to_cache('status', ...)`
runs) and the error propagates — refuting "whenever a synchronous fetch of
the activity resource succeeds, the cache entry for the status resource is
also updated". -/
theorem claim5_counterexample :
    (get_data .activity sampleSt sampleDk 50 false true true
        (.parseOk (.activity emptyActivity) 99)).st.entry .status
      = sampleSt.entry .status
    ∧ (get_data .activity sampleSt sampleDk 50 false true true
        (.parseOk (.activity emptyActivity) 99)).dk.get .status
      = sampleDk.get .status
    ∧ (get_data .activity sampleSt sampleDk 50 false true true
        (.parseOk (.activity emptyActivity) 99)).ret = .raised := by
  decide

/-- C5, amended: whenever a synchronous fetch of `activity` succeeds and
the payload carries at least one activity value, the `status` entry of the
same endpoint is updated (in memory, and on disk when disk caching is
enabled) with the projection `Status(expires, latest.level, updated,
messages)` of the same payload, carrying the same expiry, with only the one
decoder invocation and no background task. -/
theorem claim5_amended (st : CacheState) (dk : DiskState) (now : Int)
    (forced preempt useDisk : Bool) (a : Activity) (ex : Int)
    (av : ActivityValue)
    (h : forced = true ∨ (st.entry .activity).expires - now ≤ 0)
    (hl : a.latest? = some av) :
    (get_data .activity st dk now forced preempt useDisk
        (.parseOk (.activity a) ex)).st.entry .status
      = ⟨some (.status ⟨ex, av.level, a.updated, a.messages⟩), ex, true⟩
    ∧ (get_data .activity st dk now forced preempt useDisk
        (.parseOk (.activity a) ex)).st.entry .activity
      = ⟨some (.activity a), ex, true⟩
    ∧ (useDisk = true →
        (get_data .activity st dk now forced preempt useDisk
          (.parseOk (.activity a) ex)).dk.get .status
        = .good (.status ⟨ex, av.level, a.updated, a.messages⟩) ex)
    ∧ (get_data .activity st dk now forced preempt useDisk
        (.parseOk (.activity a) ex)).syncFetches = 1
    ∧ (get_data .activity st dk now forced preempt useDisk
        (.parseOk (.activity a) ex)).spawned = 0
    ∧ (get_data .activity st dk now forced preempt useDisk
        (.parseOk (.activity a) ex)).ret = .returned (some (.activity a)) := by
  rw [get_data_stale _ st dk now forced preempt useDisk _ h,
      syncRefresh_activity_ok st dk useDisk a ex av hl]
  refine ⟨rfl, rfl, ?_, rfl, rfl, rfl⟩
  intro hu
  subst hu
  rfl

theorem claim5_amended_witness :
    (false = true ∨ (sampleSt.entry Res.activity).expires - 50 ≤ 0)
    ∧ sampleActivity.latest? = some sampleAv
    ∧ (get_data .activity sampleSt sampleDk 50 false true true
        (.parseOk (.activity sampleActivity) 100)).st.entry .status
      = ⟨some (.status ⟨100, sampleAv.level, sampleActivity.updated,
          sampleActivity.messages⟩), 100, true⟩
    ∧ (get_data .activity sampleSt sampleDk 50 false true true
        (.parseOk (.activity sampleActivity) 100)).ret
      = .returned (some (.activity sampleActivity)) :=
  ⟨Or.inr (by decide), by decide,
   (claim5_amended sampleSt sampleDk 50 false true true sampleActivity 100
     sampleAv (Or.inr (by decide)) (by decide)).1,
   (claim5_amended sampleSt sampleDk 50 false true true sampleActivity 100
     sampleAv (Or.inr (by decide)) (by decide)).2.2.2.2.2⟩

/-- C7: endpoint registration is idempotent — registering an endpoint that
is already present in the registry changes nothing, and re-registering an
endpoint just registered leaves the registry unchanged — and when the
hydration of a resource from a corrupt persisted copy fails, the persisted
copy is deleted and the entry is left empty (`value` absent, `expires_at =
0`, `refresh_permitted = true`, i.e. `emptyEntry`); `awInit` and
`initEndpoint` are total, so no hydration error reaches the caller of
registration. -/
theorem claim7_registration (reg : Registry) (url : String) (dk dk2 : DiskState)
    (useDisk useDisk2 : Bool) :
    (∀ x, List.lookup url reg = some x → awInit reg url dk useDisk = reg)
    ∧ awInit (awInit reg url dk useDisk) url dk2 useDisk2
      = awInit reg url dk useDisk
    ∧ (∀ r, dk.get r = .corrupt →
        (initEndpoint dk true).2.entry r = emptyEntry
        ∧ (initEndpoint dk true).1.get r = .absent) := by
  have h1 : ∀ x, List.lookup url reg = some x → awInit reg url dk useDisk = reg := by
    intro x hx
    unfold awInit
    rw [hx]
  refine ⟨h1, ?_, ?_⟩
  · cases hlk : List.lookup url reg with
    | some x =>
      rw [h1 x hlk]
      unfold awInit
      rw [hlk]
    | none =>
      have h2 : awInit reg url dk useDisk = (url, initEndpoint dk useDisk) :: reg := by
        unfold awInit
        rw [hlk]
      rw [h2]
      unfold awInit
      rw [List.lookup_cons]
      simp
  · intro r h
    have hinit : initEndpoint dk true =
        hydrateOne (hydrateOne (hydrateOne (dk, emptyCache) .status) .activity)
          .descriptions := rfl
    rw [hinit]
    cases r with
    | status =>
      obtain ⟨he, hd⟩ := hydrateOne_corrupt (dk, emptyCache) .status h
      constructor
      · rw [hydrateOne_entry_ne _ (by decide), hydrateOne_entry_ne _ (by decide)]
        exact he
      · rw [hydrateOne_disk_ne _ (by decide), hydrateOne_disk_ne _ (by decide)]
        exact hd
    | activity =>
      have hpre : (hydrateOne (dk, emptyCache) .status).1.get .activity
          = .corrupt := by
        rw [hydrateOne_disk_ne _ (by decide)]
        exact h
      obtain ⟨he, hd⟩ := hydrateOne_corrupt (hydrateOne (dk, emptyCache) .status)
        .activity hpre
      constructor
      · rw [hydrateOne_entry_ne _ (by decide)]
        exact he
      · rw [hydrateOne_disk_ne _ (by decide)]
        exact hd
    | descriptions =>
      have hpre : (hydrateOne (hydrateOne (dk, emptyCache) .status)
          .activity).1.get .descriptions = .corrupt := by
        rw [hydrateOne_disk_ne _ (by decide), hydrateOne_disk_ne _ (by decide)]
        exact h
      exact hydrateOne_corrupt _ .descriptions hpre

theorem claim7_registration_witness :
    awInit [("u", (sampleDk, sampleSt))] "u" corruptDk true
      = [("u", (sampleDk, sampleSt))]
    ∧ (initEndpoint corruptDk true).2.entry .status = emptyEntry
    ∧ (initEndpoint corruptDk true).1.get .status = .absent :=
  ⟨(claim7_registration [("u", (sampleDk, sampleSt))] "u" corruptDk corruptDk
      true true).1 (sampleDk, sampleSt) (by decide),
   ((claim7_registration [] "u" corruptDk corruptDk true true).2.2 .status rfl).1,
   ((claim7_registration [] "u" corruptDk corruptDk true true).2.2 .status rfl).2⟩

/-- C8: the object handed out by a cache read is a fresh copy with the same
content as the cached slot, and mutating it afterwards leaves the cached
slot unchanged; likewise the write-through stores a fresh copy of the
caller's object, so mutating the caller's object afterwards leaves the
cached slot unchanged. -/
theorem claim8_defensive_copy (h : List Val) (ca ia : Nat) (w w2 : Val)
    (hca : ca < h.length) (hia : ia < h.length) :
    ((readCached h ca).1)[(readCached h ca).2]? = h[ca]?
    ∧ (mutate (readCached h ca).1 (readCached h ca).2 w)[ca]? = h[ca]?
    ∧ ((writeThroughCopy h ia).1)[(writeThroughCopy h ia).2]? = h[ia]?
    ∧ (mutate (writeThroughCopy h ia).1 ia w2)[(writeThroughCopy h ia).2]?
      = h[ia]? := by
  have hfresh : ∀ a : Nat, a < h.length →
      ((deepcopyAlloc h a).1)[(deepcopyAlloc h a).2]? = h[a]? := by
    intro a ha
    unfold deepcopyAlloc
    rw [List.getElem?_concat_length, List.getD_eq_getElem?_getD,
        List.getElem?_eq_getElem ha]
    rfl
  refine ⟨hfresh ca hca, ?_, hfresh ia hia, ?_⟩
  · unfold mutate readCached deepcopyAlloc
    rw [List.getElem?_set_ne (by omega), List.getElem?_append]
    rw [if_pos hca]
  · unfold mutate writeThroughCopy deepcopyAlloc
    rw [List.getElem?_set_ne (by omega), List.getElem?_concat_length,
        List.getD_eq_getElem?_getD, List.getElem?_eq_getElem hia]
    rfl

theorem claim8_defensive_copy_witness :
    (0 : Nat) < [sampleStatusVal, sampleActivityVal].length
    ∧ (mutate (readCached [sampleStatusVal, sampleActivityVal] 0).1
        (readCached [sampleStatusVal, sampleActivityVal] 0).2 sampleDescVal)[0]?
      = [sampleStatusVal, sampleActivityVal][0]? :=
  ⟨by decide,
   (claim8_defensive_copy [sampleStatusVal, sampleActivityVal] 0 1 sampleDescVal
     sampleStatusVal (by decide) (by decide)).2.1⟩

/-- C9: when the underlying synchronous fetch fails (the `_get_data` call
for `status` raises, or — for the color/description accessors — the one for
`descriptions` raises), a client built with `raise_=False` gets the
sentinels `'unknown'`, the configured unknown-status color, and
`'Unknown'`, while a client built with `raise_=True` gets the error
propagated. -/
theorem claim9_error_modes (uc : String)
    (dRes : Fetched (List (String × DescEntry))) (sRes : Fetched Status)
    (h : sRes = .raised ∨ dRes = .raised) :
    status_level false .raised = .returned "unknown"
    ∧ status_level true .raised = .raised
    ∧ status_color false uc dRes sRes = .returned uc
    ∧ status_color true uc dRes sRes = .raised
    ∧ status_description false dRes sRes = .returned "Unknown"
    ∧ status_description true dRes sRes = .raised := by
  have hAtt : ∀ field, descriptionField dRes sRes field = .raised := by
    intro field
    rcases h with h | h
    · subst h
      cases dRes <;> rfl
    · subst h
      rfl
  refine ⟨rfl, rfl, ?_, ?_, ?_, ?_⟩
  · simp [status_color, hAtt]
  · simp [status_color, hAtt]
  · simp [status_description, hAtt]
  · simp [status_description, hAtt]

theorem claim9_error_modes_witness :
    status_level false .raised = .returned "unknown"
    ∧ status_level true .raised = .raised
    ∧ status_color false "#777777" (.returned sampleDescs) .raised
      = .returned "#777777"
    ∧ status_color true "#777777" (.returned sampleDescs) .raised = .raised
    ∧ status_description false (.returned sampleDescs) .raised
      = .returned "Unknown"
    ∧ status_description true (.returned sampleDescs) .raised = .raised :=
  claim9_error_modes "#777777" (.returned sampleDescs) .raised (Or.inl rfl)

/-- C10: `refresh_permitted` becomes true only through a successful
write-through: a forced (background) refresh whose fetch or decode fails
leaves the flag exactly as it was (so after a spawn set it to false, it
stays false); a read of an entry whose flag is false spawns no background
task; and if the flag is true after a read, either it was already true
before, or the read's decoder invocation succeeded and wrote through. -/
theorem claim10_permit_invariant (r : Res) (st : CacheState) (dk : DiskState)
    (now : Int) (preempt useDisk : Bool) (f : FetchStep) :
    ((f = .fetchFail ∨ f = .parseFail) →
      ((get_data r st dk now true preempt useDisk f).st.entry r).permit
        = (st.entry r).permit)
    ∧ ((st.entry r).permit = false →
        (get_data r st dk now false preempt useDisk f).spawned = 0)
    ∧ (∀ forced : Bool,
        ((get_data r st dk now forced preempt useDisk f).st.entry r).permit = true →
        (st.entry r).permit = true ∨ ∃ v ex, f = .parseOk v ex) := by
  have hsync : ∀ g : Bool, (g = true ∨ (st.entry r).expires - now ≤ 0) →
      (f = .fetchFail ∨ f = .parseFail) →
      (get_data r st dk now g preempt useDisk f).st = st := by
    intro g hh hf
    rw [get_data_stale r st dk now g preempt useDisk f hh]
    rcases hf with hf | hf <;> subst hf
    · rw [syncRefresh_fetchFail]
    · rw [syncRefresh_parseFail]
  refine ⟨?_, ?_, ?_⟩
  · intro hf
    rw [hsync true (Or.inl rfl) hf]
  · intro hp
    by_cases hts : 0 < (st.entry r).expires - now
    · rw [get_data_fresh r st dk now preempt useDisk f hts]
      have hsnap : snapshotPreemptive st r preempt = false := by
        unfold snapshotPreemptive
        rw [hp]
        exact Bool.false_and preempt
      have hstep : freshPreemptiveStep st r false ((st.entry r).expires - now)
          useDisk = (st, false) := by
        unfold freshPreemptiveStep
        simp
      rw [hsnap, hstep]
      rfl
    · rw [get_data_stale r st dk now false preempt useDisk f (Or.inr (by omega))]
      exact syncRefresh_spawned r st dk useDisk f
  · intro forced hp
    cases f with
    | parseOk v ex => exact Or.inr ⟨v, ex, rfl⟩
    | fetchFail =>
      refine Or.inl ?_
      cases forced with
      | true =>
        rw [hsync true (Or.inl rfl) (Or.inl rfl)] at hp
        exact hp
      | false =>
        by_cases hts : 0 < (st.entry r).expires - now
        · rw [get_data_fresh r st dk now preempt useDisk _ hts] at hp
          unfold freshPreemptiveStep at hp
          by_cases he : (useDisk &&
              (match minTimeLeft r with
               | some m => decide ((st.entry r).expires - now < m)
               | none => false) && snapshotPreemptive st r preempt) = true
          · rw [if_pos he] at hp
            rw [setPermit_permit] at hp
            exact absurd hp (by simp)
          · rw [if_neg he] at hp
            exact hp
        · rw [hsync false (Or.inr (by omega)) (Or.inl rfl)] at hp
          exact hp
    | parseFail =>
      refine Or.inl ?_
      cases forced with
      | true =>
        rw [hsync true (Or.inl rfl) (Or.inr rfl)] at hp
        exact hp
      | false =>
        by_cases hts : 0 < (st.entry r).expires - now
        · rw [get_data_fresh r st dk now preempt useDisk _ hts] at hp
          unfold freshPreemptiveStep at hp
          by_cases he : (useDisk &&
              (match minTimeLeft r with
               | some m => decide ((st.entry r).expires - now < m)
               | none => false) && snapshotPreemptive st r preempt) = true
          · rw [if_pos he] at hp
            rw [setPermit_permit] at hp
            exact absurd hp (by simp)
          · rw [if_neg he] at hp
            exact hp
        · rw [hsync false (Or.inr (by omega)) (Or.inr rfl)] at hp
          exact hp

theorem claim10_permit_invariant_witness :
    ((get_data .activity sampleSt sampleDk 50 true true true
        .fetchFail).st.entry .activity).permit
      = (sampleSt.entry .activity).permit
    ∧ (get_data .status samplePermitOff sampleDk 30 false true true
        .fetchFail).spawned = 0
    ∧ ((sampleSt.entry .status).permit = true
        ∨ ∃ v ex, FetchStep.fetchFail = FetchStep.parseOk v ex) :=
  ⟨(claim10_permit_invariant .activity sampleSt sampleDk 50 true true
      .fetchFail).1 (Or.inl rfl),
   (claim10_permit_invariant .status samplePermitOff sampleDk 30 true true
      .fetchFail).2.1 rfl,
   (claim10_permit_invariant .status sampleSt sampleDk 30 false true
      .fetchFail).2.2 false (by decide)⟩

end AuroraWatch
